import Mathlib

/-!
Verification of the lead-system vendor waterfall.

Shallow embedding of the repository's core: the price-tier table
(`priceTierService`), the tier iterator (`iteratePriceTiers`), the
waterfall orchestrator (`processLead`), the two vendor adapters
(`postToITMedia`, `postToLeadsMarket`), the attempt writer
(`savePostAttempt`) and lead validation (`validateLeadData`).

Modelling conventions:
- Prices are rationals (the canonical tier table contains 0.5);
  JS `Math.floor` is the mathematical floor.
- JS truthiness on a numeric value is `x ≠ 0`; on a string it is
  `s ≠ ""`; an absent (undefined/null) value is `Option.none`.
- The vendor adapters' network call is an external effect; it is
  modelled as an `Except String response` argument: `.error msg` is a
  thrown transport/timeout failure caught by the adapter's catch block,
  `.ok r` is the parsed response body.  Wire fields carrying numbers are
  modelled by their parsed numeric value.
- The tier iterator's adapter argument is an oracle `post : Nat → Outcome`
  giving the outcome of the k-th adapter call of the vendor run (the
  source's `attemptOrder` counts calls, so it is used as the index); this
  quantifies over every possible sequence of adapter outcomes.
- Database collaborators (`insert`, `update`) are modelled as
  `Except String Unit` oracles; wall-clock durations and JSON
  serialization of raw payloads (`duration_ms`, `response_payload`) are
  effects outside the embedding and are omitted from the attempt record.
-/

namespace LeadSystem

/-- Canonical outcome of one vendor adapter call, as produced by
`postToITMedia` / `postToLeadsMarket` and consumed by `iteratePriceTiers`. -/
inductive Outcome where
  | sold (price : ℚ) (vendorLeadId : Option String) (redirectUrl : Option String)
  | rejected (message : Option String)
  | price_reject (suggestedPrice : ℚ) (message : Option String)
  | error (message : String)
deriving Repr, DecidableEq

/-- The `status` string field of an outcome object. -/
def Outcome.statusStr : Outcome → String
  | .sold _ _ _ => "sold"
  | .rejected _ => "rejected"
  | .price_reject _ _ => "price_reject"
  | .error _ => "error"

/-- `result.price` (present only on sold outcomes). -/
def Outcome.priceOf : Outcome → Option ℚ
  | .sold p _ _ => some p
  | _ => none

/-- `result.vendorLeadId` (present only on sold outcomes). -/
def Outcome.vendorLeadIdOf : Outcome → Option String
  | .sold _ vid _ => vid
  | _ => none

/-- `result.redirectUrl` (present only on sold outcomes). -/
def Outcome.redirectUrlOf : Outcome → Option String
  | .sold _ _ ru => ru
  | _ => none

/-- `result.message` (absent on sold outcomes). -/
def Outcome.messageOf : Outcome → Option String
  | .sold _ _ _ => none
  | .rejected m => m
  | .price_reject _ m => m
  | .error m => some m

/-- JS `x || null` on an optional string: an empty string is falsy. -/
def strOrNull : Option String → Option String
  | some s => if s = "" then none else some s
  | none => none

/-- JS `x || null` on an optional number: 0 is falsy. -/
def numOrNull : Option ℚ → Option ℚ
  | some q => if q = 0 then none else some q
  | none => none

/-- JS `x || d` on an optional string with a string default. -/
def strOrDefault (s : Option String) (d : String) : String :=
  match s with
  | some s => if s = "" then d else s
  | none => d

-- =============================================
-- Price Tier Table (priceTierService)
-- =============================================

/-- `PRICE_TIERS`: standard price tiers in descending order. -/
def PRICE_TIERS : List ℚ := [250, 150, 80, 60, 40, 20, 10, 5, 2, 1, 1/2]

/-- `getITMediaPriceTiers()`: ITMedia accepts decimal prices, returned as-is. -/
def getITMediaPriceTiers : List ℚ := PRICE_TIERS

/-- The per-price map inside `getLeadsMarketPriceTiers`:
`if (price > 230) return 230; if (price < 1) return 0; return Math.floor(price)`. -/
def lmTierAdapt (price : ℚ) : ℚ :=
  if 230 < price then 230
  else if price < 1 then 0
  else (⌊price⌋ : ℚ)

/-- The JS dedup idiom `.filter((p, i, self) => self.indexOf(p) === i)`:
keep only the first occurrence of each value, preserving order. -/
def dedupKeepFirst (l : List ℚ) : List ℚ :=
  l.foldl (fun acc x => if x ∈ acc then acc else acc ++ [x]) []

/-- `getLeadsMarketPriceTiers()`: map the canonical tiers into LeadsMarket's
integer 0–230 domain, then remove duplicates keeping first occurrences. -/
def getLeadsMarketPriceTiers : List ℚ :=
  dedupKeepFirst (PRICE_TIERS.map lmTierAdapt)

-- =============================================
-- Tier Iterator (iteratePriceTiers)
-- =============================================

/-- One Bid Attempt record as built inside `iteratePriceTiers` and stored in
the `post_attempts` table (`duration_ms` and `response_payload` are
wall-clock / serialization effects, omitted from the embedding). -/
structure Attempt where
  vendor : String
  min_price_sent : ℚ
  status : String
  price : Option ℚ
  vendor_lead_id : Option String
  redirect_url : Option String
  attempt_order : Nat
  error_message : Option String
deriving Repr, DecidableEq

/-- The attempt object literal built in `iteratePriceTiers` for one adapter
call: `price: result.price || null`, `vendor_lead_id: result.vendorLeadId ||
null`, `redirect_url: result.redirectUrl || null`, `error_message:
result.message || null`. -/
def mkAttempt (vendorName : String) (price : ℚ) (result : Outcome)
    (attemptOrder : Nat) : Attempt :=
  { vendor := vendorName
    min_price_sent := price
    status := result.statusStr
    price := numOrNull result.priceOf
    vendor_lead_id := strOrNull result.vendorLeadIdOf
    redirect_url := strOrNull result.redirectUrlOf
    attempt_order := attemptOrder
    error_message := strOrNull result.messageOf }

/-- The value returned by `iteratePriceTiers`. -/
structure RunResult where
  finalStatus : String
  soldPrice : Option ℚ
  vendorLeadId : Option String
  redirectUrl : Option String
  vendor : String
  attempts : List Attempt
  totalAttempts : Nat
deriving Repr, DecidableEq

/-- The `for (const price of priceTiers)` loop body of `iteratePriceTiers`,
with the accumulated `attempts` array and the `attemptOrder` counter as
explicit state.  The JS guard `result.status === "price_reject" &&
result.suggestedPrice` is the truthiness test `suggestedPrice ≠ 0`; when it
fails, control falls through the `rejected`/`error` branches to the trailing
`attemptOrder++` and the loop continues.  A `break` runs the code after the
loop, which returns `finalStatus: "rejected"` with `attemptOrder - 1`. -/
def iterLoop (post : Nat → Outcome) (vendorName : String) :
    List ℚ → List Attempt → Nat → RunResult
  | [], attempts, attemptOrder =>
      { finalStatus := "rejected", soldPrice := none, vendorLeadId := none,
        redirectUrl := none, vendor := vendorName, attempts := attempts,
        totalAttempts := attemptOrder - 1 }
  | price :: rest, attempts, attemptOrder =>
      let result := post attemptOrder
      let attempts2 := attempts ++ [mkAttempt vendorName price result attemptOrder]
      match result with
      | .sold p vid ru =>
          { finalStatus := "sold", soldPrice := some p, vendorLeadId := vid,
            redirectUrl := ru, vendor := vendorName, attempts := attempts2,
            totalAttempts := attemptOrder }
      | .price_reject sp _ =>
          if sp ≠ 0 then
            let retryOrder := attemptOrder + 1
            let retryResult := post retryOrder
            let attempts3 :=
              attempts2 ++ [mkAttempt vendorName sp retryResult retryOrder]
            match retryResult with
            | .sold p vid ru =>
                { finalStatus := "sold", soldPrice := some p,
                  vendorLeadId := vid, redirectUrl := ru, vendor := vendorName,
                  attempts := attempts3, totalAttempts := retryOrder }
            | _ =>
                { finalStatus := "rejected", soldPrice := none,
                  vendorLeadId := none, redirectUrl := none,
                  vendor := vendorName, attempts := attempts3,
                  totalAttempts := retryOrder - 1 }
          else
            iterLoop post vendorName rest attempts2 (attemptOrder + 1)
      | .rejected _ => iterLoop post vendorName rest attempts2 (attemptOrder + 1)
      | .error _ => iterLoop post vendorName rest attempts2 (attemptOrder + 1)

/-- `iteratePriceTiers(postFunction, leadData, priceTiers, vendorName)`:
`attempts = []`, `attemptOrder = 1`, then the tier loop.  The lead record is
only forwarded to the adapter, so it is absorbed into the `post` oracle. -/
def iteratePriceTiers (post : Nat → Outcome) (priceTiers : List ℚ)
    (vendorName : String) : RunResult :=
  iterLoop post vendorName priceTiers [] 1

-- =============================================
-- Vendor Adapter: LeadsMarket (leadsmarketService)
-- =============================================

/-- Parsed LeadsMarket response body; wire fields carrying numbers are
modelled by their parsed numeric value, absent or empty fields by `none`. -/
structure LMResponse where
  Result : String
  Price : Option ℚ
  LeadID : Option String
  RedirectURL : Option String
  Message : Option String
deriving Repr, DecidableEq

/-- The integer price actually submitted by `postToLeadsMarket`:
`let intPrice = Math.floor(minPrice); if (intPrice > 230) intPrice = 230;
if (intPrice < 0) intPrice = 0`. -/
def lmIntPrice (minPrice : ℚ) : Int :=
  let intPrice := Rat.floor minPrice
  let capped := if intPrice > 230 then 230 else intPrice
  if capped < 0 then 0 else capped

/-- The `MinimumPrice` query parameter: `intPrice.toString()`. -/
def lmMinimumPriceField (minPrice : ℚ) : String :=
  toString (lmIntPrice minPrice)

/-- `postToLeadsMarket(leadData, minPrice)`.  The `axios.get` network call is
the `http` argument: `.error msg` is a thrown transport/timeout failure
handled by the adapter's catch block, `.ok result` is the response body.
`price: parseFloat(result.Price || intPrice)` uses `intPrice` when the
`Price` field is absent/empty. -/
def postToLeadsMarket (minPrice : ℚ) (http : Except String LMResponse) :
    Outcome :=
  let intPrice := lmIntPrice minPrice
  match http with
  | .error e => .error e
  | .ok result =>
      if result.Result = "1" then
        .sold (result.Price.getD (intPrice : ℚ)) (strOrNull result.LeadID)
          (strOrNull result.RedirectURL)
      else if result.Result = "2" then
        .rejected (some (strOrDefault result.Message "Lead rejected by LeadsMarket"))
      else
        .error (strOrDefault result.Message "Unknown response from LeadsMarket")

-- =============================================
-- Vendor Adapter: ITMedia (itmediaService)
-- =============================================

/-- Parsed ITMedia response body.  `PriceRejectAmount` is `some amt` when the
wire field is present and nonempty (a nonempty string such as "0" is truthy
in the JS guard even though `parseFloat` maps it to 0). -/
structure ITResponse where
  Status : String
  Price : Option ℚ
  LeadID : Option String
  Redirect : Option String
  PriceRejectAmount : Option ℚ
  Message : Option String
deriving Repr, DecidableEq

/-- `postToITMedia(leadData, minPrice)`.  As for LeadsMarket, the network
call is the `http` argument.  `price: parseFloat(result.Price)` on a missing
field is out of the numeric domain and modelled as 0; `minPrice` itself is
forwarded unchanged on the wire (`min_price: minPrice.toString()`). -/
def postToITMedia (minPrice : ℚ) (http : Except String ITResponse) : Outcome :=
  match http with
  | .error e => .error e
  | .ok result =>
      if result.Status = "Sold" then
        .sold (result.Price.getD 0) result.LeadID (strOrNull result.Redirect)
      else
        match result.PriceRejectAmount with
        | some amt =>
            if result.Status = "Rejected" then
              .price_reject amt
                (some (strOrDefault result.Message "Price rejected, retry suggested"))
            else if result.Status = "Error" then
              .error (strOrDefault result.Message "ITMedia API error")
            else .error "Unknown response from ITMedia"
        | none =>
            if result.Status = "Rejected" then
              .rejected (some (strOrDefault result.Message "Lead rejected"))
            else if result.Status = "Error" then
              .error (strOrDefault result.Message "ITMedia API error")
            else .error "Unknown response from ITMedia"

-- =============================================
-- Persistence collaborators (loggingService)
-- =============================================

/-- `savePostAttempt(leadId, attempt)`: the `insert` into `post_attempts` is
the oracle `ins`; its failure is caught and swallowed ("Don't throw - we
don't want logging errors to stop the flow"), so the writer always resolves
normally. -/
def savePostAttempt (ins : Attempt → Except String Unit) (attempt : Attempt) :
    Except String Unit :=
  match ins attempt with
  | .ok _ => .ok ()
  | .error _ => .ok ()

/-- `savePostAttemptsBatch(leadId, attempts)`: awaits `savePostAttempt` for
each attempt in order (a rejection would propagate, but the writer swallows
its own failures). -/
def savePostAttemptsBatch (ins : Attempt → Except String Unit) :
    List Attempt → Except String Unit
  | [] => .ok ()
  | attempt :: rest =>
      match savePostAttempt ins attempt with
      | .error e => .error e
      | .ok _ => savePostAttemptsBatch ins rest

/-- `updateLeadStatus(...)`: the `update` of the `leads` row is the oracle
`dbUpdate`; its failure is caught and swallowed. -/
def updateLeadStatus (dbUpdate : Except String Unit) : Except String Unit :=
  match dbUpdate with
  | .ok _ => .ok ()
  | .error _ => .ok ()

-- =============================================
-- Waterfall Orchestrator (processLead)
-- =============================================

/-- The value returned by `processLead` (union of its sold / rejected /
error response shapes; keys absent in a shape are `none`). -/
structure ProcessResult where
  status : String
  lead_id : Option Nat
  vendor : Option String
  price : Option ℚ
  vendor_lead_id : Option String
  redirect_url : Option String
  total_attempts : Option Nat
  message : Option String
  errorText : Option String
deriving Repr, DecidableEq

/-- Steps 2–6 of `processLead` (everything inside the `try` after the lead
row is saved): run ITMedia's tier iteration, persist its attempts, return
sold on success; otherwise run LeadsMarket, persist, return sold with summed
attempts or the rejected result.  `upd` is the `update("leads", ...)` oracle
behind `updateLeadStatus`. -/
def processBody (postA postB : Nat → Outcome)
    (ins : Attempt → Except String Unit) (upd : Except String Unit)
    (leadId : Nat) : Except String ProcessResult :=
  let itmediaResult := iteratePriceTiers postA getITMediaPriceTiers "ITMedia"
  match savePostAttemptsBatch ins itmediaResult.attempts with
  | .error e => .error e
  | .ok _ =>
      if itmediaResult.finalStatus = "sold" then
        match updateLeadStatus upd with
        | .error e => .error e
        | .ok _ =>
            .ok { status := "sold", lead_id := some leadId,
                  vendor := some "ITMedia", price := itmediaResult.soldPrice,
                  vendor_lead_id := itmediaResult.vendorLeadId,
                  redirect_url := itmediaResult.redirectUrl,
                  total_attempts := some itmediaResult.totalAttempts,
                  message := none, errorText := none }
      else
        let leadsmarketResult :=
          iteratePriceTiers postB getLeadsMarketPriceTiers "LeadsMarket"
        match savePostAttemptsBatch ins leadsmarketResult.attempts with
        | .error e => .error e
        | .ok _ =>
            if leadsmarketResult.finalStatus = "sold" then
              match updateLeadStatus upd with
              | .error e => .error e
              | .ok _ =>
                  .ok { status := "sold", lead_id := some leadId,
                        vendor := some "LeadsMarket",
                        price := leadsmarketResult.soldPrice,
                        vendor_lead_id := leadsmarketResult.vendorLeadId,
                        redirect_url := leadsmarketResult.redirectUrl,
                        total_attempts := some (itmediaResult.totalAttempts +
                          leadsmarketResult.totalAttempts),
                        message := none, errorText := none }
            else
              match updateLeadStatus upd with
              | .error e => .error e
              | .ok _ =>
                  .ok { status := "rejected", lead_id := some leadId,
                        vendor := none, price := none, vendor_lead_id := none,
                        redirect_url := none,
                        total_attempts := some (itmediaResult.totalAttempts +
                          leadsmarketResult.totalAttempts),
                        message := some
                          "No lenders matched your application at this time",
                        errorText := none }

/-- The `try/catch` skeleton of `processLead`: step 1 saves the lead (a
failure leaves `leadId = null`), then the body runs; any rejection is caught
once and converted to the `status: "error"` response. -/
def processLeadTry (saveLead : Except String Nat)
    (body : Nat → Except String ProcessResult) : ProcessResult :=
  match saveLead with
  | .error e =>
      { status := "error", lead_id := none, vendor := none, price := none,
        vendor_lead_id := none, redirect_url := none, total_attempts := none,
        message := some "An error occurred while processing your application",
        errorText := some e }
  | .ok leadId =>
      match body leadId with
      | .ok r => r
      | .error e =>
          { status := "error", lead_id := some leadId, vendor := none,
            price := none, vendor_lead_id := none, redirect_url := none,
            total_attempts := none,
            message := some "An error occurred while processing your application",
            errorText := some e }

/-- `processLead(leadData)`: the full orchestrator over its collaborator
oracles (`saveLead` = `saveLeadToDatabase`, `postA`/`postB` = the two vendor
adapters, `ins` = attempt-row insert, `upd` = lead-status update). -/
def processLead (saveLead : Except String Nat) (postA postB : Nat → Outcome)
    (ins : Attempt → Except String Unit) (upd : Except String Unit) :
    ProcessResult :=
  processLeadTry saveLead (processBody postA postB ins upd)

/-- The full sequence of attempt rows persisted by one `processLead` run:
ITMedia's batch, then (only when ITMedia did not sell) LeadsMarket's batch. -/
def processAttemptLog (postA postB : Nat → Outcome) : List Attempt :=
  let itmediaResult := iteratePriceTiers postA getITMediaPriceTiers "ITMedia"
  if itmediaResult.finalStatus = "sold" then itmediaResult.attempts
  else itmediaResult.attempts ++
    (iteratePriceTiers postB getLeadsMarketPriceTiers "LeadsMarket").attempts

-- =============================================
-- Validation (validateLeadData)
-- =============================================

/-- The lead record handed to `validateLeadData`.  String fields use `""`
for an absent value (both are falsy and not `=== 0` in the JS presence
check); numeric fields use `Option` (`none` = absent, `some 0` = the number
0, which the presence check explicitly admits via `!== 0`). -/
structure LeadData where
  fName : String
  lName : String
  email : String
  phone : String
  bMonth : Option Int
  bDay : Option Int
  bYear : Option Int
  address1 : String
  city : String
  state : String
  zip : String
  lengthAtAddress : String
  rentOwn : String
  amount : Option ℚ
  ssn : String
  incomeSource : String
  monthlyNetIncome : Option ℚ
  callTime : String
  ip_address : String
  user_agent : String
deriving Repr, DecidableEq

/-- The value returned by `validateLeadData`. -/
structure ValidationResult where
  valid : Bool
  errors : List String
deriving Repr, DecidableEq

/-- JS `!leadData[field] && leadData[field] !== 0` on a string field. -/
def strFieldMissing (s : String) : Bool := s = ""

/-- JS `!leadData[field] && leadData[field] !== 0` on a numeric field:
only an absent value is missing (0 is exempted by the `!== 0` clause). -/
def numFieldMissing (x : Option ℚ) : Bool := x.isNone

/-- Same presence check on an integer field. -/
def intFieldMissing (x : Option Int) : Bool := x.isNone

/-- The `requiredFields` loop of `validateLeadData`, in source order. -/
def requiredFieldErrors (d : LeadData) : List String :=
  (if strFieldMissing d.fName then ["Missing required field: fName"] else []) ++
  (if strFieldMissing d.lName then ["Missing required field: lName"] else []) ++
  (if strFieldMissing d.email then ["Missing required field: email"] else []) ++
  (if strFieldMissing d.phone then ["Missing required field: phone"] else []) ++
  (if intFieldMissing d.bMonth then ["Missing required field: bMonth"] else []) ++
  (if intFieldMissing d.bDay then ["Missing required field: bDay"] else []) ++
  (if intFieldMissing d.bYear then ["Missing required field: bYear"] else []) ++
  (if strFieldMissing d.address1 then ["Missing required field: address1"] else []) ++
  (if strFieldMissing d.city then ["Missing required field: city"] else []) ++
  (if strFieldMissing d.state then ["Missing required field: state"] else []) ++
  (if strFieldMissing d.zip then ["Missing required field: zip"] else []) ++
  (if strFieldMissing d.lengthAtAddress then ["Missing required field: lengthAtAddress"] else []) ++
  (if strFieldMissing d.rentOwn then ["Missing required field: rentOwn"] else []) ++
  (if numFieldMissing d.amount then ["Missing required field: amount"] else []) ++
  (if strFieldMissing d.ssn then ["Missing required field: ssn"] else []) ++
  (if strFieldMissing d.incomeSource then ["Missing required field: incomeSource"] else []) ++
  (if numFieldMissing d.monthlyNetIncome then ["Missing required field: monthlyNetIncome"] else []) ++
  (if strFieldMissing d.callTime then ["Missing required field: callTime"] else []) ++
  (if strFieldMissing d.ip_address then ["Missing required field: ip_address"] else []) ++
  (if strFieldMissing d.user_agent then ["Missing required field: user_agent"] else [])

/-- `if (leadData.amount && (leadData.amount < 100 || leadData.amount >
5000))`: the range check only fires on a present, truthy (nonzero) amount. -/
def amountErrors (d : LeadData) : List String :=
  match d.amount with
  | some a =>
      if a ≠ 0 ∧ (a < 100 ∨ 5000 < a) then
        ["Amount must be between $100 and $5,000"]
      else []
  | none => []

/-- `if (leadData.monthlyNetIncome && leadData.monthlyNetIncome < 800)`. -/
def incomeErrors (d : LeadData) : List String :=
  match d.monthlyNetIncome with
  | some m =>
      if m ≠ 0 ∧ m < 800 then ["Monthly income must be at least $800"] else []
  | none => []

/-- `if (leadData.phone && leadData.phone.length !== 10)`. -/
def phoneErrors (d : LeadData) : List String :=
  if d.phone ≠ "" ∧ d.phone.length ≠ 10 then ["Phone number must be 10 digits"]
  else []

/-- `if (leadData.ssn && leadData.ssn.length !== 9)`. -/
def ssnErrors (d : LeadData) : List String :=
  if d.ssn ≠ "" ∧ d.ssn.length ≠ 9 then ["SSN must be 9 digits"] else []

/-- `if (leadData.zip && leadData.zip.length !== 5)`. -/
def zipErrors (d : LeadData) : List String :=
  if d.zip ≠ "" ∧ d.zip.length ≠ 5 then ["ZIP code must be 5 digits"] else []

/-- `if (leadData.email && !leadData.email.includes("@"))`; the substring
test for the single character "@" is membership of '@' in the email's
characters. -/
def emailErrors (d : LeadData) : List String :=
  if d.email ≠ "" ∧ ¬ ('@' ∈ d.email.data) then ["Invalid email format"]
  else []

/-- The age branch of `validateLeadData`, for calendar-valid birth
components (1–12 / 1–28, where `new Date(bYear, bMonth - 1, bDay)` does not
normalize): `age = today.getFullYear() - bYear`, `monthDiff =
today.getMonth() - (bMonth - 1) - ... = todayMonth - bMonth` with months
numbered 1–12 here, decrement when the anniversary has not yet passed.  The
JS guard `bMonth && bDay && bYear` requires all three present and nonzero. -/
def ageErrors (todayYear todayMonth todayDay : Int) (d : LeadData) :
    List String :=
  match d.bMonth, d.bDay, d.bYear with
  | some m, some day, some y =>
      if m ≠ 0 ∧ day ≠ 0 ∧ y ≠ 0 then
        let age := todayYear - y
        let monthDiff := todayMonth - m
        let actualAge :=
          if monthDiff < 0 ∨ (monthDiff = 0 ∧ todayDay < day) then age - 1
          else age
        if actualAge < 18 then ["Must be 18 years or older"] else []
      else []
  | _, _, _ => []

/-- `validateLeadData(leadData)`: accumulate the error messages in source
order, then `valid: errors.length === 0`.  The ambient `new Date()` is the
`todayYear/todayMonth/todayDay` arguments (months 1–12). -/
def validateLeadData (todayYear todayMonth todayDay : Int) (d : LeadData) :
    ValidationResult :=
  let errors :=
    requiredFieldErrors d ++ amountErrors d ++ incomeErrors d ++
    phoneErrors d ++ ssnErrors d ++ zipErrors d ++ emailErrors d ++
    ageErrors todayYear todayMonth todayDay d
  { valid := errors.isEmpty, errors := errors }

end LeadSystem

namespace LeadSystem

/-- The pure result of steps 2–6 (they only interrogate the two tier runs;
attempt and status writes always resolve). -/
def pureBody (postA postB : Nat → Outcome) (leadId : Nat) : ProcessResult :=
  let itmediaResult := iteratePriceTiers postA getITMediaPriceTiers "ITMedia"
  if itmediaResult.finalStatus = "sold" then
    { status := "sold", lead_id := some leadId, vendor := some "ITMedia",
      price := itmediaResult.soldPrice,
      vendor_lead_id := itmediaResult.vendorLeadId,
      redirect_url := itmediaResult.redirectUrl,
      total_attempts := some itmediaResult.totalAttempts,
      message := none, errorText := none }
  else
    let leadsmarketResult :=
      iteratePriceTiers postB getLeadsMarketPriceTiers "LeadsMarket"
    if leadsmarketResult.finalStatus = "sold" then
      { status := "sold", lead_id := some leadId, vendor := some "LeadsMarket",
        price := leadsmarketResult.soldPrice,
        vendor_lead_id := leadsmarketResult.vendorLeadId,
        redirect_url := leadsmarketResult.redirectUrl,
        total_attempts := some (itmediaResult.totalAttempts +
          leadsmarketResult.totalAttempts),
        message := none, errorText := none }
    else
      { status := "rejected", lead_id := some leadId, vendor := none,
        price := none, vendor_lead_id := none, redirect_url := none,
        total_attempts := some (itmediaResult.totalAttempts +
          leadsmarketResult.totalAttempts),
        message := some "No lenders matched your application at this time",
        errorText := none }

/-- An otherwise fully valid lead whose requested amount is 0. -/
def zeroAmountLead : LeadData :=
  { fName := "John", lName := "Doe", email := "john@example.com",
    phone := "5551234567", bMonth := some 1, bDay := some 15,
    bYear := some 1990, address1 := "1 Main St", city := "Austin",
    state := "TX", zip := "78701", lengthAtAddress := "24",
    rentOwn := "rent", amount := some 0, ssn := "123456789",
    incomeSource := "employment", monthlyNetIncome := some 3000,
    callTime := "anytime", ip_address := "1.2.3.4", user_agent := "UA" }

theorem savePostAttemptsBatch_ok (ins : Attempt → Except String Unit) :
    ∀ l : List Attempt, savePostAttemptsBatch ins l = .ok () := by
  intro l
  induction l with
  | nil => rfl
  | cons a rest ih =>
      simp only [savePostAttemptsBatch, savePostAttempt]
      cases ins a <;> simpa using ih

theorem updateLeadStatus_ok (u : Except String Unit) :
    updateLeadStatus u = .ok () := by
  cases u <;> rfl

theorem iterLoop_orders (post : Nat → Outcome) (v : String) :
    ∀ (tiers : List ℚ) (acc : List Attempt) (a : Nat),
    ∃ t, (iterLoop post v tiers acc a).attempts = acc ++ t ∧
      t.map Attempt.attempt_order = List.range' a t.length := by
  intro tiers
  induction tiers with
  | nil => intro acc a; exact ⟨[], by simp [iterLoop], by simp⟩
  | cons p rest ih =>
      intro acc a
      simp only [iterLoop]
      cases hp : post a with
      | sold pr vid ru =>
          exact ⟨[mkAttempt v p (Outcome.sold pr vid ru) a], by simp [mkAttempt],
            by simp [mkAttempt, List.range'_succ]⟩
      | rejected m =>
          obtain ⟨t, ht, hmap⟩ := ih (acc ++ [mkAttempt v p (Outcome.rejected m) a]) (a + 1)
          exact ⟨mkAttempt v p (Outcome.rejected m) a :: t, by simpa using ht,
            by simp [mkAttempt, List.range'_succ, hmap]⟩
      | error m =>
          obtain ⟨t, ht, hmap⟩ := ih (acc ++ [mkAttempt v p (Outcome.error m) a]) (a + 1)
          exact ⟨mkAttempt v p (Outcome.error m) a :: t, by simpa using ht,
            by simp [mkAttempt, List.range'_succ, hmap]⟩
      | price_reject sp m =>
          by_cases hsp : sp = 0
          · simp only [hsp, ne_eq, not_true_eq_false, if_false]
            obtain ⟨t, ht, hmap⟩ := ih (acc ++ [mkAttempt v p (Outcome.price_reject 0 m) a]) (a + 1)
            exact ⟨mkAttempt v p (Outcome.price_reject 0 m) a :: t, by simpa using ht,
              by simp [mkAttempt, List.range'_succ, hmap]⟩
          · simp only [ne_eq, hsp, not_false_eq_true, if_true]
            cases hr : post (a + 1) with
            | sold pr vid ru =>
                exact ⟨[mkAttempt v p (Outcome.price_reject sp m) a,
                  mkAttempt v sp (Outcome.sold pr vid ru) (a+1)],
                  by simp [mkAttempt], by simp [mkAttempt, List.range'_succ]⟩
            | rejected m2 =>
                exact ⟨[mkAttempt v p (Outcome.price_reject sp m) a,
                  mkAttempt v sp (Outcome.rejected m2) (a+1)],
                  by simp [mkAttempt], by simp [mkAttempt, List.range'_succ]⟩
            | error m2 =>
                exact ⟨[mkAttempt v p (Outcome.price_reject sp m) a,
                  mkAttempt v sp (Outcome.error m2) (a+1)],
                  by simp [mkAttempt], by simp [mkAttempt, List.range'_succ]⟩
            | price_reject sp2 m2 =>
                exact ⟨[mkAttempt v p (Outcome.price_reject sp m) a,
                  mkAttempt v sp (Outcome.price_reject sp2 m2) (a+1)],
                  by simp [mkAttempt], by simp [mkAttempt, List.range'_succ]⟩


theorem iterLoop_sold_total (post : Nat → Outcome) (v : String) :
    ∀ (tiers : List ℚ) (acc : List Attempt) (a : Nat), a = acc.length + 1 →
    (iterLoop post v tiers acc a).finalStatus = "sold" →
    (iterLoop post v tiers acc a).totalAttempts =
      (iterLoop post v tiers acc a).attempts.length := by
  intro tiers
  induction tiers with
  | nil => intro acc a ha h; simp [iterLoop] at h
  | cons p rest ih =>
      intro acc a ha h
      simp only [iterLoop] at h ⊢
      cases hp : post a with
      | sold pr vid ru => simp [ha]
      | rejected m =>
          rw [hp] at h
          dsimp only at h ⊢
          exact ih _ (a + 1) (by simp [ha]) h
      | error m =>
          rw [hp] at h
          dsimp only at h ⊢
          exact ih _ (a + 1) (by simp [ha]) h
      | price_reject sp m =>
          rw [hp] at h
          dsimp only at h ⊢
          by_cases hsp : sp = 0
          · rw [if_neg (not_not_intro hsp)] at h ⊢
            exact ih _ (a + 1) (by simp [ha]) h
          · rw [if_pos hsp] at h ⊢
            cases hr : post (a + 1) with
            | sold pr vid ru => simp [ha]
            | rejected m2 => rw [hr] at h; simp at h
            | error m2 => rw [hr] at h; simp at h
            | price_reject sp2 m2 => rw [hr] at h; simp at h

theorem iterLoop_all_rejected (post : Nat → Outcome) (v : String)
    (h : ∀ k, (post k).statusStr = "rejected" ∨ (post k).statusStr = "error") :
    ∀ (tiers : List ℚ) (acc : List Attempt) (a : Nat), 1 ≤ a →
    (iterLoop post v tiers acc a).finalStatus = "rejected" ∧
    (iterLoop post v tiers acc a).attempts.length = acc.length + tiers.length ∧
    (iterLoop post v tiers acc a).totalAttempts = a - 1 + tiers.length := by
  intro tiers
  induction tiers with
  | nil => intro acc a _; simp [iterLoop]
  | cons p rest ih =>
      intro acc a ha
      simp only [iterLoop]
      cases hp : post a with
      | sold pr vid ru => have := h a; rw [hp] at this; simp [Outcome.statusStr] at this
      | price_reject sp m => have := h a; rw [hp] at this; simp [Outcome.statusStr] at this
      | rejected m =>
          obtain ⟨h1, h2, h3⟩ := ih (acc ++ [mkAttempt v p (Outcome.rejected m) a]) (a + 1) (by omega)
          refine ⟨h1, ?_, ?_⟩
          · rw [h2]; simp; omega
          · rw [h3]; simp; omega
      | error m =>
          obtain ⟨h1, h2, h3⟩ := ih (acc ++ [mkAttempt v p (Outcome.error m) a]) (a + 1) (by omega)
          refine ⟨h1, ?_, ?_⟩
          · rw [h2]; simp; omega
          · rw [h3]; simp; omega


/-- Concrete value of the LeadsMarket tier table. -/
theorem lm_tiers_eval :
    getLeadsMarketPriceTiers = [230, 150, 80, 60, 40, 20, 10, 5, 2, 1, 0] := by
  norm_num [getLeadsMarketPriceTiers, dedupKeepFirst, lmTierAdapt, PRICE_TIERS,
    List.foldl]

theorem processBody_eq (postA postB : Nat → Outcome)
    (ins : Attempt → Except String Unit) (upd : Except String Unit)
    (leadId : Nat) :
    processBody postA postB ins upd leadId =
      .ok (pureBody postA postB leadId) := by
  simp only [processBody, pureBody, savePostAttemptsBatch_ok,
    updateLeadStatus_ok]
  split
  · rfl
  · split <;> rfl

theorem processLead_eq (saveLead : Except String Nat)
    (postA postB : Nat → Outcome) (ins : Attempt → Except String Unit)
    (upd : Except String Unit) (leadId : Nat) (hs : saveLead = .ok leadId) :
    processLead saveLead postA postB ins upd = pureBody postA postB leadId := by
  simp [processLead, processLeadTry, hs, processBody_eq]

-- =============================================
-- C6: LeadsMarket price tier derivation
-- =============================================

/-- C6: `getLeadsMarketPriceTiers()` applied to the canonical tiers
[250, 150, 80, 60, 40, 20, 10, 5, 2, 1, 0.5] returns exactly
[230, 150, 80, 60, 40, 20, 10, 5, 2, 1, 0]; every value is an integer in
[0, 230]; the list is strictly descending after de-duplication; the
per-price transform caps prices above 230 to 230, snaps prices below 1 to
0, floors the rest and never rounds up; and calling it twice yields
identical output. -/
theorem leadsmarket_tier_table :
    getLeadsMarketPriceTiers = [230, 150, 80, 60, 40, 20, 10, 5, 2, 1, 0]
    ∧ (∀ x ∈ getLeadsMarketPriceTiers, x.den = 1 ∧ 0 ≤ x ∧ x ≤ 230)
    ∧ List.Chain' (· > ·) getLeadsMarketPriceTiers
    ∧ (∀ p : ℚ, 230 < p → lmTierAdapt p = 230)
    ∧ (∀ p : ℚ, p < 1 → lmTierAdapt p = 0)
    ∧ (∀ p : ℚ, 1 ≤ p → p ≤ 230 → lmTierAdapt p = (⌊p⌋ : ℚ))
    ∧ (∀ p : ℚ, 0 ≤ p → lmTierAdapt p ≤ p)
    ∧ getLeadsMarketPriceTiers = getLeadsMarketPriceTiers := by
  refine ⟨lm_tiers_eval, ?_, ?_, ?_, ?_, ?_, ?_, rfl⟩
  · rw [lm_tiers_eval]; decide
  · rw [lm_tiers_eval]; norm_num [List.chain'_cons]
  · intro p h
    rw [lmTierAdapt, if_pos h]
  · intro p h
    rw [lmTierAdapt, if_neg (by linarith), if_pos h]
  · intro p h1 h2
    rw [lmTierAdapt, if_neg (by linarith), if_neg (by linarith)]
  · intro p h
    rw [lmTierAdapt]
    split_ifs with h1 h2
    · linarith
    · exact h
    · exact Int.floor_le p

/-- Witness for C6 at concrete prices. -/
theorem leadsmarket_tier_table_witness :
    lmTierAdapt 250 = 230 ∧ lmTierAdapt (1/2) = 0 ∧ lmTierAdapt 150 = 150 ∧
    lmTierAdapt 150 ≤ 150 :=
  ⟨leadsmarket_tier_table.2.2.2.1 250 (by norm_num),
   leadsmarket_tier_table.2.2.2.2.1 (1/2) (by norm_num),
   by rw [leadsmarket_tier_table.2.2.2.2.2.1 150 (by norm_num) (by norm_num)]
      norm_num,
   leadsmarket_tier_table.2.2.2.2.2.2.1 150 (by norm_num)⟩

-- =============================================
-- C7: LeadsMarket adapter price clamping / result mapping
-- =============================================

/-- C7: `postToLeadsMarket` submits `MinimumPrice` equal to
min(230, max(0, floor(price))) serialized as an integer string, maps a
`Result` of "1" to sold, "2" to rejected and anything else to error, and
never produces a `price_reject` outcome. -/
theorem leadsmarket_adapter_price_and_result_mapping :
    (∀ p : ℚ, lmIntPrice p = min 230 (max 0 ⌊p⌋))
    ∧ (∀ p : ℚ, lmMinimumPriceField p = toString (min 230 (max 0 ⌊p⌋)))
    ∧ (∀ (p : ℚ) (r : LMResponse),
        (postToLeadsMarket p (Except.ok r)).statusStr =
          if r.Result = "1" then "sold"
          else if r.Result = "2" then "rejected" else "error")
    ∧ (∀ (p : ℚ) (http : Except String LMResponse),
        (postToLeadsMarket p http).statusStr ≠ "price_reject") := by
  have hfloor : ∀ p : ℚ, Rat.floor p = ⌊p⌋ := fun _ => rfl
  have hclamp : ∀ p : ℚ, lmIntPrice p = min 230 (max 0 ⌊p⌋) := by
    intro p
    simp only [lmIntPrice, hfloor]
    split_ifs <;> omega
  refine ⟨hclamp, ?_, ?_, ?_⟩
  · intro p
    rw [lmMinimumPriceField, hclamp]
  · intro p r
    rw [postToLeadsMarket]
    split_ifs <;> rfl
  · intro p http
    cases http with
    | error e => simp [postToLeadsMarket, Outcome.statusStr]
    | ok r =>
        simp only [postToLeadsMarket]
        split_ifs <;> simp [Outcome.statusStr]

-- =============================================
-- C10: adapters are total and map thrown failures to error outcomes
-- =============================================

/-- C10: both adapters catch every thrown network/timeout failure and
return it as an outcome with status "error" carrying the failure message,
and every adapter invocation yields exactly one canonical outcome (by
construction they are total functions and never throw to the caller). -/
theorem vendor_adapters_total :
    (∀ (p : ℚ) (msg : String),
        postToLeadsMarket p (Except.error msg) = Outcome.error msg)
    ∧ (∀ (p : ℚ) (msg : String),
        postToITMedia p (Except.error msg) = Outcome.error msg)
    ∧ (∀ (p : ℚ) (http : Except String LMResponse),
        (postToLeadsMarket p http).statusStr = "sold"
        ∨ (postToLeadsMarket p http).statusStr = "rejected"
        ∨ (postToLeadsMarket p http).statusStr = "error")
    ∧ (∀ (p : ℚ) (http : Except String ITResponse),
        (postToITMedia p http).statusStr = "sold"
        ∨ (postToITMedia p http).statusStr = "rejected"
        ∨ (postToITMedia p http).statusStr = "price_reject"
        ∨ (postToITMedia p http).statusStr = "error") := by
  refine ⟨fun p msg => rfl, fun p msg => rfl, ?_, ?_⟩
  · intro p http
    cases http with
    | error e => right; right; rfl
    | ok r =>
        simp only [postToLeadsMarket]
        split_ifs <;> simp [Outcome.statusStr]
  · intro p http
    cases http with
    | error e => right; right; right; rfl
    | ok r =>
        rw [postToITMedia]
        cases r.PriceRejectAmount <;> split_ifs <;> simp [Outcome.statusStr]

-- =============================================
-- C2: tier iteration stop/continue policy
-- =============================================

/-- C2: over any tier list and any sequence of adapter outcomes, an empty
tier list yields an immediate rejected result with zero attempts; a
rejected or error outcome advances to the next tier with the attempt still
recorded; a sold outcome stops immediately with the attempts so far; and
when every outcome is rejected or error the loop never ends early: all
tiers are consumed and the run returns finalStatus "rejected". -/
theorem tier_iteration_stop_continue_policy :
    (∀ (post : Nat → Outcome) (v : String),
      iteratePriceTiers post [] v =
        { finalStatus := "rejected", soldPrice := none, vendorLeadId := none,
          redirectUrl := none, vendor := v, attempts := [],
          totalAttempts := 0 })
    ∧ (∀ (post : Nat → Outcome) (v : String) (p : ℚ) (rest : List ℚ)
        (acc : List Attempt) (a : Nat),
        ((post a).statusStr = "rejected" ∨ (post a).statusStr = "error") →
        iterLoop post v (p :: rest) acc a =
          iterLoop post v rest (acc ++ [mkAttempt v p (post a) a]) (a + 1))
    ∧ (∀ (post : Nat → Outcome) (v : String) (p : ℚ) (rest : List ℚ)
        (acc : List Attempt) (a : Nat) (pr : ℚ) (vid ru : Option String),
        post a = Outcome.sold pr vid ru →
        iterLoop post v (p :: rest) acc a =
          { finalStatus := "sold", soldPrice := some pr, vendorLeadId := vid,
            redirectUrl := ru, vendor := v,
            attempts := acc ++ [mkAttempt v p (post a) a],
            totalAttempts := a })
    ∧ (∀ (post : Nat → Outcome) (v : String) (tiers : List ℚ),
        (∀ k, (post k).statusStr = "rejected" ∨ (post k).statusStr = "error") →
        (iteratePriceTiers post tiers v).finalStatus = "rejected"
        ∧ (iteratePriceTiers post tiers v).attempts.length = tiers.length
        ∧ (iteratePriceTiers post tiers v).totalAttempts = tiers.length) := by
  refine ⟨fun post v => rfl, ?_, ?_, ?_⟩
  · intro post v p rest acc a h
    simp only [iterLoop]
    cases hp : post a with
    | sold pr vid ru =>
        rw [hp] at h
        simp [Outcome.statusStr] at h
    | price_reject sp m =>
        rw [hp] at h
        simp [Outcome.statusStr] at h
    | rejected m => rfl
    | error m => rfl
  · intro post v p rest acc a pr vid ru hp
    simp only [iterLoop]
    rw [hp]
  · intro post v tiers h
    have := iterLoop_all_rejected post v h tiers [] 1 (by omega)
    exact ⟨this.1, by simpa using this.2.1, by simpa using this.2.2⟩

/-- Witness for C2 at a concrete two-tier all-rejected run. -/
theorem tier_iteration_stop_continue_policy_witness :
    (iteratePriceTiers (fun _ => Outcome.rejected none) [(250:ℚ), 150]
        "ITMedia").finalStatus = "rejected"
    ∧ (iteratePriceTiers (fun _ => Outcome.rejected none) [(250:ℚ), 150]
        "ITMedia").attempts.length = 2
    ∧ (iteratePriceTiers (fun _ => Outcome.rejected none) [(250:ℚ), 150]
        "ITMedia").totalAttempts = 2 := by
  have h := tier_iteration_stop_continue_policy.2.2.2
    (fun _ => Outcome.rejected none) "ITMedia" [(250:ℚ), 150]
    (fun k => Or.inl rfl)
  exact ⟨h.1, h.2.1, h.2.2⟩

-- =============================================
-- C3: price_reject counter-offer retry
-- =============================================

/-- C3 counterexample: the retry guard is the JS truthiness test
`result.suggestedPrice`, so a price_reject outcome whose suggested price is
0 triggers no retry at all — the iterator records the attempt and continues
with the next lower tier (here tier 5), contradicting the claim that every
price_reject triggers exactly one immediate retry at the suggested price
after which the vendor run stops. -/
theorem price_reject_zero_suggested_counterexample :
    (iteratePriceTiers (fun _ => Outcome.price_reject 0 none) [(10:ℚ), 5]
        "ITMedia").attempts.map Attempt.min_price_sent = [10, 5]
    ∧ (iteratePriceTiers (fun _ => Outcome.price_reject 0 none) [(10:ℚ), 5]
        "ITMedia").finalStatus = "rejected"
    ∧ (iteratePriceTiers (fun _ => Outcome.price_reject 0 none) [(10:ℚ), 5]
        "ITMedia").totalAttempts = 2
    ∧ (iteratePriceTiers (fun _ => Outcome.price_reject 0 none) [(10:ℚ), 5]
        "ITMedia").attempts.map Attempt.min_price_sent ≠ [10, 0] := by
  decide

/-- C3 (amended): a price_reject outcome with a nonzero (truthy)
suggestedPrice triggers exactly one immediate retry at that price, recorded
as one additional Bid Attempt; a sold retry returns sold, any non-sold
retry (including another price_reject — no chained counter-offers) stops
the vendor run without trying further tiers; a price_reject whose
suggestedPrice is 0 is treated like a rejection: the attempt is recorded
and iteration advances to the next tier with no retry. -/
theorem price_reject_single_retry_amended :
    ∀ (post : Nat → Outcome) (v : String) (p : ℚ) (rest : List ℚ)
      (acc : List Attempt) (a : Nat) (sp : ℚ) (m : Option String),
    post a = Outcome.price_reject sp m →
    (sp ≠ 0 →
      (∀ (pr : ℚ) (vid ru : Option String),
        post (a + 1) = Outcome.sold pr vid ru →
        iterLoop post v (p :: rest) acc a =
          { finalStatus := "sold", soldPrice := some pr, vendorLeadId := vid,
            redirectUrl := ru, vendor := v,
            attempts := acc ++ [mkAttempt v p (post a) a,
              mkAttempt v sp (post (a + 1)) (a + 1)],
            totalAttempts := a + 1 })
      ∧ ((post (a + 1)).statusStr ≠ "sold" →
        iterLoop post v (p :: rest) acc a =
          { finalStatus := "rejected", soldPrice := none, vendorLeadId := none,
            redirectUrl := none, vendor := v,
            attempts := acc ++ [mkAttempt v p (post a) a,
              mkAttempt v sp (post (a + 1)) (a + 1)],
            totalAttempts := a }))
    ∧ (sp = 0 →
      iterLoop post v (p :: rest) acc a =
        iterLoop post v rest (acc ++ [mkAttempt v p (post a) a]) (a + 1)) := by
  intro post v p rest acc a sp m hp
  constructor
  · intro hsp
    constructor
    · intro pr vid ru hr
      simp only [iterLoop]
      rw [hp]
      dsimp only
      rw [if_pos hsp, hr]
      simp
    · intro hr
      simp only [iterLoop]
      rw [hp]
      dsimp only
      rw [if_pos hsp]
      cases hq : post (a + 1) with
      | sold pr vid ru => rw [hq] at hr; simp [Outcome.statusStr] at hr
      | rejected m2 => simp
      | error m2 => simp
      | price_reject sp2 m2 => simp
  · intro hsp
    simp only [iterLoop]
    rw [hp]
    dsimp only
    rw [if_neg (not_not_intro hsp)]

/-- Witness for C3 (amended): price_reject with suggested price 100 on the
first tier, rejected retry — the run stops with both attempts recorded. -/
theorem price_reject_single_retry_amended_witness :
    iterLoop
      (fun k => if k = 1 then Outcome.price_reject 100 none
        else Outcome.rejected none) "ITMedia" [(250:ℚ), 150] [] 1 =
      { finalStatus := "rejected", soldPrice := none, vendorLeadId := none,
        redirectUrl := none, vendor := "ITMedia",
        attempts := [mkAttempt "ITMedia" 250
            ((fun k => if k = 1 then Outcome.price_reject 100 none
              else Outcome.rejected none) 1) 1,
          mkAttempt "ITMedia" 100
            ((fun k => if k = 1 then Outcome.price_reject 100 none
              else Outcome.rejected none) 2) 2],
        totalAttempts := 1 } := by
  have h := (price_reject_single_retry_amended
    (fun k => if k = 1 then Outcome.price_reject 100 none
      else Outcome.rejected none) "ITMedia" 250 [150] [] 1 100 none rfl).1
    (by norm_num)
  simpa using h.2 (by decide)

-- =============================================
-- C4: totalAttempts vs recorded attempts (code bug)
-- =============================================

/-- C4: evaluation at the failing input.  With a price_reject (suggested
price 100) on tier 1 and a rejected retry, the tier iterator records 2 Bid
Attempts and returns finalStatus "rejected" but totalAttempts = 1: the
break path returns `attemptOrder - 1` although the retry attempt was
recorded after the last increment, so the returned totalAttempts
undercounts the recorded attempts by one, contradicting the documented
contract (totalAttempts = number of recorded attempts = 2). -/
theorem price_reject_retry_totalAttempts_bug :
    (iteratePriceTiers
      (fun k => if k = 1 then Outcome.price_reject 100 none
        else Outcome.rejected none) [(250:ℚ), 150] "ITMedia").finalStatus
        = "rejected"
    ∧ (iteratePriceTiers
      (fun k => if k = 1 then Outcome.price_reject 100 none
        else Outcome.rejected none) [(250:ℚ), 150] "ITMedia").attempts.length
        = 2
    ∧ (iteratePriceTiers
      (fun k => if k = 1 then Outcome.price_reject 100 none
        else Outcome.rejected none) [(250:ℚ), 150] "ITMedia").totalAttempts
        = 1 := by
  decide

-- =============================================
-- C5: attempt_order across the two vendor runs
-- =============================================

/-- Orders of one vendor run: the recorded attempt orders are exactly
1, 2, ..., number of attempts. -/
theorem iteratePriceTiers_orders (post : Nat → Outcome) (v : String)
    (tiers : List ℚ) :
    (iteratePriceTiers post tiers v).attempts.map Attempt.attempt_order =
      List.range' 1 (iteratePriceTiers post tiers v).attempts.length := by
  obtain ⟨t, ht, hmap⟩ := iterLoop_orders post v tiers [] 1
  simpa [iteratePriceTiers, ht] using hmap

/-- C5 counterexample: `attemptOrder` restarts at 1 for each vendor run, so
with ITMedia rejecting all 11 tiers and LeadsMarket selling on its first
tier the combined persisted attempt log carries sequence positions
[1, ..., 11, 1], which is not strictly monotonically increasing across the
two vendors. -/
theorem attempt_order_cross_vendor_counterexample :
    (processAttemptLog (fun _ => Outcome.rejected none)
        (fun _ => Outcome.sold 230 none none)).map Attempt.attempt_order =
      [1, 2, 3, 4, 5, 6, 7, 8, 9, 10, 11, 1]
    ∧ ¬ List.Chain' (· < ·)
        ((processAttemptLog (fun _ => Outcome.rejected none)
          (fun _ => Outcome.sold 230 none none)).map Attempt.attempt_order) := by
  have heval : (processAttemptLog (fun _ => Outcome.rejected none)
      (fun _ => Outcome.sold 230 none none)).map Attempt.attempt_order =
      [1, 2, 3, 4, 5, 6, 7, 8, 9, 10, 11, 1] := by
    rw [processAttemptLog, lm_tiers_eval]
    decide
  refine ⟨heval, ?_⟩
  rw [heval]
  norm_num [List.chain'_cons]

/-- C5 (amended): within each vendor run the recorded sequence positions
are 1-based and strictly increasing (consecutive 1, 2, ...), but the
counter is reset for the second vendor: the combined persisted log is a
concatenation of two such 1-based ranges, so order reconstructs the call
sequence only within each vendor's run. -/
theorem attempt_order_per_vendor_monotone :
    ∀ postA postB : Nat → Outcome, ∃ nA nB,
      (processAttemptLog postA postB).map Attempt.attempt_order =
        List.range' 1 nA ++ List.range' 1 nB := by
  intro postA postB
  by_cases hc : (iteratePriceTiers postA getITMediaPriceTiers
      "ITMedia").finalStatus = "sold"
  · refine ⟨(iteratePriceTiers postA getITMediaPriceTiers
      "ITMedia").attempts.length, 0, ?_⟩
    simp [processAttemptLog, hc, iteratePriceTiers_orders]
  · refine ⟨(iteratePriceTiers postA getITMediaPriceTiers
      "ITMedia").attempts.length,
      (iteratePriceTiers postB getLeadsMarketPriceTiers
        "LeadsMarket").attempts.length, ?_⟩
    simp [processAttemptLog, hc, iteratePriceTiers_orders]

-- =============================================
-- C1: waterfall vendor priority and attempt aggregation
-- =============================================

/-- C1: when ITMedia's tier run sells, `processLead` returns the sold
result with total_attempts equal to ITMedia's attempt count (its
totalAttempts, which on a sold run equals the number of recorded attempts)
and the result does not depend on LeadsMarket's adapter at all (it is never
invoked); when ITMedia does not sell and LeadsMarket sells, the sold
result's total_attempts is the sum of both vendors' totalAttempts. -/
theorem orchestrator_vendor_priority :
    ∀ (leadId : Nat) (postA postB postB2 : Nat → Outcome)
      (ins : Attempt → Except String Unit) (upd : Except String Unit),
    ((iteratePriceTiers postA getITMediaPriceTiers "ITMedia").finalStatus
        = "sold" →
      processLead (Except.ok leadId) postA postB ins upd =
        { status := "sold", lead_id := some leadId, vendor := some "ITMedia",
          price := (iteratePriceTiers postA getITMediaPriceTiers
            "ITMedia").soldPrice,
          vendor_lead_id := (iteratePriceTiers postA getITMediaPriceTiers
            "ITMedia").vendorLeadId,
          redirect_url := (iteratePriceTiers postA getITMediaPriceTiers
            "ITMedia").redirectUrl,
          total_attempts := some (iteratePriceTiers postA getITMediaPriceTiers
            "ITMedia").totalAttempts,
          message := none, errorText := none }
      ∧ (iteratePriceTiers postA getITMediaPriceTiers "ITMedia").totalAttempts
          = (iteratePriceTiers postA getITMediaPriceTiers
            "ITMedia").attempts.length
      ∧ processLead (Except.ok leadId) postA postB ins upd =
          processLead (Except.ok leadId) postA postB2 ins upd)
    ∧ ((iteratePriceTiers postA getITMediaPriceTiers "ITMedia").finalStatus
        ≠ "sold" →
       (iteratePriceTiers postB getLeadsMarketPriceTiers
         "LeadsMarket").finalStatus = "sold" →
      processLead (Except.ok leadId) postA postB ins upd =
        { status := "sold", lead_id := some leadId,
          vendor := some "LeadsMarket",
          price := (iteratePriceTiers postB getLeadsMarketPriceTiers
            "LeadsMarket").soldPrice,
          vendor_lead_id := (iteratePriceTiers postB getLeadsMarketPriceTiers
            "LeadsMarket").vendorLeadId,
          redirect_url := (iteratePriceTiers postB getLeadsMarketPriceTiers
            "LeadsMarket").redirectUrl,
          total_attempts := some
            ((iteratePriceTiers postA getITMediaPriceTiers
              "ITMedia").totalAttempts +
             (iteratePriceTiers postB getLeadsMarketPriceTiers
              "LeadsMarket").totalAttempts),
          message := none, errorText := none }) := by
  intro leadId postA postB postB2 ins upd
  constructor
  · intro hA
    refine ⟨?_, ?_, ?_⟩
    · rw [processLead_eq (Except.ok leadId) postA postB ins upd leadId rfl]
      rw [pureBody]
      simp only [hA, if_pos]
    · exact iterLoop_sold_total postA "ITMedia" getITMediaPriceTiers [] 1
        rfl hA
    · rw [processLead_eq (Except.ok leadId) postA postB ins upd leadId rfl,
        processLead_eq (Except.ok leadId) postA postB2 ins upd leadId rfl]
      rw [pureBody, pureBody]
      simp only [hA, if_pos]
  · intro hA hB
    rw [processLead_eq (Except.ok leadId) postA postB ins upd leadId rfl]
    rw [pureBody]
    simp only [hA, hB, if_neg, if_pos, if_false, if_true]

/-- Witness for C1: ITMedia sells on the first call. -/
theorem orchestrator_vendor_priority_witness :
    processLead (Except.ok 1) (fun _ => Outcome.sold 250 (some "IT1") none)
        (fun _ => Outcome.rejected none) (fun _ => Except.ok ())
        (Except.ok ()) =
      { status := "sold", lead_id := some 1, vendor := some "ITMedia",
        price := some 250, vendor_lead_id := some "IT1",
        redirect_url := none, total_attempts := some 1, message := none,
        errorText := none } := by
  have h := (orchestrator_vendor_priority 1
    (fun _ => Outcome.sold 250 (some "IT1") none)
    (fun _ => Outcome.rejected none) (fun _ => Outcome.rejected none)
    (fun _ => Except.ok ()) (Except.ok ())).1 (by decide)
  rw [h.1]
  decide

-- =============================================
-- C8: orchestrator error boundary / swallowed audit failures
-- =============================================

/-- C8: after the lead row is saved, any rejection raised by the remaining
steps is caught once at the orchestrator boundary and converted into a
returned result with status "error" and a message (never re-thrown to the
caller); the attempt writer `savePostAttempt` always resolves normally no
matter how the underlying insert fails; and the orchestrator's result is
entirely independent of the attempt-insert and status-update oracles, so
an audit write failure can never alter the sold/rejected determination. -/
theorem orchestrator_error_boundary :
    (∀ (body : Nat → Except String ProcessResult) (leadId : Nat) (e : String),
      body leadId = Except.error e →
      processLeadTry (Except.ok leadId) body =
        { status := "error", lead_id := some leadId, vendor := none,
          price := none, vendor_lead_id := none, redirect_url := none,
          total_attempts := none,
          message := some "An error occurred while processing your application",
          errorText := some e })
    ∧ (∀ (ins : Attempt → Except String Unit) (a : Attempt),
        savePostAttempt ins a = Except.ok ())
    ∧ (∀ (postA postB : Nat → Outcome)
        (ins ins2 : Attempt → Except String Unit)
        (upd upd2 : Except String Unit) (leadId : Nat),
        processLead (Except.ok leadId) postA postB ins upd =
          processLead (Except.ok leadId) postA postB ins2 upd2) := by
  refine ⟨?_, ?_, ?_⟩
  · intro body leadId e h
    rw [processLeadTry, h]
  · intro ins a
    rw [savePostAttempt]
    cases ins a <;> rfl
  · intro postA postB ins ins2 upd upd2 leadId
    rw [processLead_eq (Except.ok leadId) postA postB ins upd leadId rfl,
      processLead_eq (Except.ok leadId) postA postB ins2 upd2 leadId rfl]

/-- Witness for C8: a body that throws is converted to the error result. -/
theorem orchestrator_error_boundary_witness :
    processLeadTry (Except.ok 7) (fun _ => Except.error "boom") =
      { status := "error", lead_id := some 7, vendor := none, price := none,
        vendor_lead_id := none, redirect_url := none, total_attempts := none,
        message := some "An error occurred while processing your application",
        errorText := some "boom" } :=
  orchestrator_error_boundary.1 (fun _ => Except.error "boom") 7 "boom" rfl

-- =============================================
-- C9: validation range checks
-- =============================================

/-- C9 counterexample: an amount of 0 is outside [100, 5000], yet
`validateLeadData` returns valid = true for it — the required-field check
explicitly admits 0 (`!== 0`) and the range check is guarded by JS
truthiness (`leadData.amount && ...`), which 0 fails, so no error is
recorded. -/
theorem validate_zero_amount_counterexample :
    (validateLeadData 2026 10 11 zeroAmountLead).valid = true
    ∧ zeroAmountLead.amount = some 0
    ∧ ¬ ((100:ℚ) ≤ 0) := by
  refine ⟨?_, rfl, by norm_num⟩
  decide

/-- The error list produced by `validateLeadData` is the concatenation of
its check blocks in source order. -/
theorem validateLeadData_errors (ty tm td : Int) (d : LeadData) :
    (validateLeadData ty tm td d).errors =
      requiredFieldErrors d ++ amountErrors d ++ incomeErrors d ++
      phoneErrors d ++ ssnErrors d ++ zipErrors d ++ emailErrors d ++
      ageErrors ty tm td d := by
  simp only [validateLeadData]

/-- `valid: errors.length === 0`. -/
theorem validateLeadData_valid (ty tm td : Int) (d : LeadData) :
    (validateLeadData ty tm td d).valid =
      (validateLeadData ty tm td d).errors.isEmpty := by
  simp only [validateLeadData]

/-- C9 (amended): `validateLeadData` records the range error and returns
valid = false whenever a present and nonzero requested amount lies outside
[100, 5000], and whenever a present and nonzero monthly net income is below
800; zero values pass the presence check and skip both range checks, so
they are not rejected. -/
theorem validate_range_checks_amended :
    ∀ (ty tm td : Int) (d : LeadData),
    (∀ a : ℚ, d.amount = some a → a ≠ 0 → (a < 100 ∨ 5000 < a) →
      "Amount must be between $100 and $5,000" ∈
        (validateLeadData ty tm td d).errors
      ∧ (validateLeadData ty tm td d).valid = false)
    ∧ (∀ m : ℚ, d.monthlyNetIncome = some m → m ≠ 0 → m < 800 →
      "Monthly income must be at least $800" ∈
        (validateLeadData ty tm td d).errors
      ∧ (validateLeadData ty tm td d).valid = false) := by
  intro ty tm td d
  have hv : ∀ msg : String, msg ∈ (validateLeadData ty tm td d).errors →
      (validateLeadData ty tm td d).valid = false := by
    intro msg hm
    rw [validateLeadData_valid]
    cases h : (validateLeadData ty tm td d).errors.isEmpty with
    | false => rfl
    | true =>
        rw [List.isEmpty_iff] at h
        rw [h] at hm
        simp at hm
  constructor
  · intro a hsome hne hrange
    have hAM : amountErrors d = ["Amount must be between $100 and $5,000"] := by
      simp only [amountErrors, hsome]
      rw [if_pos ⟨hne, hrange⟩]
    have hmem : "Amount must be between $100 and $5,000" ∈
        (validateLeadData ty tm td d).errors := by
      rw [validateLeadData_errors]
      simp [hAM]
    exact ⟨hmem, hv _ hmem⟩
  · intro m hsome hne hlt
    have hIM : incomeErrors d = ["Monthly income must be at least $800"] := by
      simp only [incomeErrors, hsome]
      rw [if_pos ⟨hne, hlt⟩]
    have hmem : "Monthly income must be at least $800" ∈
        (validateLeadData ty tm td d).errors := by
      rw [validateLeadData_errors]
      simp [hIM]
    exact ⟨hmem, hv _ hmem⟩

/-- Witness for C9 (amended): the same lead with a nonzero out-of-range
amount of 50 is rejected with the range error. -/
theorem validate_range_checks_amended_witness :
    "Amount must be between $100 and $5,000" ∈
      (validateLeadData 2026 10 11
        { zeroAmountLead with amount := some 50 }).errors
    ∧ (validateLeadData 2026 10 11
        { zeroAmountLead with amount := some 50 }).valid = false :=
  (validate_range_checks_amended 2026 10 11
    { zeroAmountLead with amount := some 50 }).1 50 rfl (by norm_num)
    (Or.inl (by norm_num))

end LeadSystem
